import Mathlib

/-!
# Crane-Maintenance-Dashboard: verification of the ingestion-and-prediction pipeline

A shallow embedding of the repository's core, together with proofs of the
spec's claims about it.

* Log parser and tag resolution: embedded from
  `One time run/CraneSats-Zip_db.py` (`process_line`, the search-pattern
  pre-filter, the structure regex, crane/tag-detail extraction, the fixed
  timestamp format, the tag-mapping fallback, and the file ordering / cap).
* Time-series insert (`database.insert_stat`), whose module is not part of
  the staged sources, is modelled from the spec as an idempotent insert
  keyed by the natural key `(entity_id, metric_name, timestamp)`.
* Prediction engine (`prediction_engine.predict_service_date`), whose module
  is not part of the staged sources, is modelled from the spec (§4.4).
* `migrate_db.migrate` and `auth.py` are embedded from the staged sources.

Strings are processed as `List Char`; Python `str.strip`, the regexes and
`pandas.to_datetime(.., format='%Y-%m-%d_%H.%M.%S.%f', errors='coerce')`
are embedded as executable functions over character lists.  Lines handed to
`process_line` come from iterating a text file, so (after stripping) they
contain no newline; the embedding of the regexes relies on that.
-/

/-! ## Character-level helpers (Python string semantics) -/

/-- The whitespace set of Python's `str.strip()` and of the regex class `\s`:
space, tab, newline, carriage return, vertical tab, form feed. -/
def isPySpace (c : Char) : Bool :=
  c == ' ' || c == '\t' || c == '\n' || c == '\r' || c == '\x0b' || c == '\x0c'

/-- Python `str.strip()`: drop leading and trailing whitespace. -/
def pyStrip (cs : List Char) : List Char :=
  ((cs.dropWhile isPySpace).reverse.dropWhile isPySpace).reverse

/-- `isPrefixB p cs = true` iff `p` is a prefix of `cs` (executable). -/
def isPrefixB : List Char → List Char → Bool
  | [], _ => true
  | _ :: _, [] => false
  | p :: ps, c :: cs => p == c && isPrefixB ps cs

/-- Python's `pat in s` substring test. -/
def containsSub (pat : List Char) : List Char → Bool
  | [] => isPrefixB pat []
  | c :: cs => isPrefixB pat (c :: cs) || containsSub pat cs

/-- Characters kept by `re.sub(r'[^\x20-\x7E]', '', s)`: printable ASCII. -/
def isPrintableAscii (c : Char) : Bool :=
  0x20 ≤ c.toNat && c.toNat ≤ 0x7E

/-- The cleaning applied to a raw tag detail before resolution
(`CraneSats-Zip_db.py:102`): strip, remove non-printable-ASCII, strip. -/
def cleanTag (cs : List Char) : List Char :=
  pyStrip ((pyStrip cs).filter isPrintableAscii)

/-! ## The fixed timestamp format `%Y-%m-%d_%H.%M.%S.%f`

`pd.to_datetime(s, format='%Y-%m-%d_%H.%M.%S.%f', errors='coerce')`
(`CraneSats-Zip_db.py:106`) parses exactly: 4-digit year, `-`, 2-digit
month, `-`, 2-digit day, `_`, 2-digit hour, `.`, 2-digit minute, `.`,
2-digit second, `.`, 1–6 digits of fractional seconds (right-padded to
microseconds), with nothing left over, and the date must be a real
calendar date; on failure it yields `NaT` (here `none`). -/

/-- A parsed timestamp of the log format. -/
structure DateTime where
  year : Nat
  month : Nat
  day : Nat
  hour : Nat
  minute : Nat
  second : Nat
  usec : Nat
deriving DecidableEq, BEq

/-- Read exactly `n` decimal digits from the front, most significant first. -/
def readDigits : Nat → Nat → List Char → Option (Nat × List Char)
  | 0, acc, cs => some (acc, cs)
  | n + 1, acc, c :: cs =>
      if c.isDigit then readDigits n (acc * 10 + (c.toNat - 48)) cs else none
  | _ + 1, _, [] => none

/-- Read 1 to 6 digits (the `%f` field), returning the digit string's value
and its length. -/
def readFrac : Nat → Nat → Nat → List Char → Option (Nat × Nat)
  | seen, acc, _, [] => if seen == 0 then none else some (acc, seen)
  | seen, acc, room, c :: cs =>
      if c.isDigit then
        match room with
        | 0 => none
        | room + 1 => readFrac (seen + 1) (acc * 10 + (c.toNat - 48)) room cs
      else none

/-- Gregorian leap year. -/
def isLeapYear (y : Nat) : Bool :=
  (y % 4 == 0 && y % 100 != 0) || y % 400 == 0

/-- Days in a month of a given year. -/
def daysInMonth (y m : Nat) : Nat :=
  if m == 2 then (if isLeapYear y then 29 else 28)
  else if m == 4 || m == 6 || m == 9 || m == 11 then 30
  else 31

/-- Embedding of the fixed-format timestamp parse: `none` models `NaT`. -/
def tsParse (cs : List Char) : Option DateTime :=
  match readDigits 4 0 cs with
  | none => none
  | some (y, cs) =>
  match cs with
  | '-' :: cs =>
    match readDigits 2 0 cs with
    | none => none
    | some (mo, cs) =>
    match cs with
    | '-' :: cs =>
      match readDigits 2 0 cs with
      | none => none
      | some (d, cs) =>
      match cs with
      | '_' :: cs =>
        match readDigits 2 0 cs with
        | none => none
        | some (h, cs) =>
        match cs with
        | '.' :: cs =>
          match readDigits 2 0 cs with
          | none => none
          | some (mi, cs) =>
          match cs with
          | '.' :: cs =>
            match readDigits 2 0 cs with
            | none => none
            | some (s, cs) =>
            match cs with
            | '.' :: cs =>
              match readFrac 0 0 6 cs with
              | none => none
              | some (f, len) =>
                if 1 ≤ mo && mo ≤ 12 && 1 ≤ d && d ≤ daysInMonth y mo
                    && h ≤ 23 && mi ≤ 59 && s ≤ 59 then
                  some ⟨y, mo, d, h, mi, s, f * 10 ^ (6 - len)⟩
                else none
            | _ => none
          | _ => none
        | _ => none
      | _ => none
    | _ => none
  | _ => none

/-! ## The structure regex

`re.match(r'^(.*?): \(\d+\): (TAG:\[[^\]]+\])\s*(.*)$', line.strip())`
(`CraneSats-Zip_db.py:93`).  The lazy group `(.*?)` takes the shortest
prefix such that the fixed remainder matches at that point; `\d+` and
`[^\]]+` are maximal runs followed by the forced `): ` resp. `]`; `\s*`
swallows the whitespace before the result payload.  Returns
`(timestamp token, full tag string, result payload)`. -/

/-- Maximal run of decimal digits; `none` if empty. -/
def takeDigits1 (cs : List Char) : Option (List Char) :=
  let rest := cs.dropWhile Char.isDigit
  if cs.dropWhile Char.isDigit == cs then none else some rest

/-- Maximal run of non-`]` characters (at least one) followed by `]`:
returns `(run, remainder after the bracket)`. -/
def takeInner (cs : List Char) : Option (List Char × List Char) :=
  let run := cs.takeWhile (fun c => c != ']')
  match cs.dropWhile (fun c => c != ']') with
  | ']' :: rest => if run.isEmpty then none else some (run, rest)
  | _ => none

/-- Try the fixed part `: \(\d+\): (TAG:\[[^\]]+\])\s*(.*)$` at the current
position; on success return the captured tag string and result payload. -/
def matchTail (cs : List Char) : Option (List Char × List Char) :=
  match cs with
  | ':' :: ' ' :: '(' :: cs1 =>
    match takeDigits1 cs1 with
    | none => none
    | some cs2 =>
      match cs2 with
      | ')' :: ':' :: ' ' :: 'T' :: 'A' :: 'G' :: ':' :: '[' :: cs3 =>
        match takeInner cs3 with
        | none => none
        | some (inner, rest) =>
            some ('T' :: 'A' :: 'G' :: ':' :: '[' :: (inner ++ [']']),
                  rest.dropWhile isPySpace)
      | _ => none
  | _ => none

/-- The lazy scan of `(.*?)`: at each split point, first try the fixed
remainder, else move one character into group 1. -/
def structScan (acc : List Char) : List Char → Option (List Char × List Char × List Char)
  | [] => none
  | c :: cs =>
    match matchTail (c :: cs) with
    | some (tag, res) => some (acc.reverse, tag, res)
    | none => structScan (c :: acc) cs

/-- The whole structure match on the stripped line. -/
def structMatch (cs : List Char) : Option (List Char × List Char × List Char) :=
  structScan [] cs

/-! ## Crane number and tag-detail extraction -/

/-- `re.search(r'TAG:\[(RMG\d{2})/', s)` tried at one position. -/
def craneAt : List Char → Option (List Char)
  | 'T' :: 'A' :: 'G' :: ':' :: '[' :: 'R' :: 'M' :: 'G' :: d1 :: d2 :: '/' :: _ =>
      if d1.isDigit && d2.isDigit then some ['R', 'M', 'G', d1, d2] else none
  | _ => none

/-- `re.search`: first position (left to right) where the crane pattern
matches. -/
def searchCrane : List Char → Option (List Char)
  | [] => none
  | c :: cs =>
    match craneAt (c :: cs) with
    | some r => some r
    | none => searchCrane cs

/-- `CRANE_STATISTIC_TYPE` (`CraneSats-Zip_db.py:40`). -/
def craneStatisticType : String := "Perma"

/-- The literal part before the tag detail
(`CraneSats-Zip_db.py:99`): `TAG:[<crane>/<crane>:CRANE.STATISTIC.Perma.` -/
def craneTagHead (crane : List Char) : List Char :=
  "TAG:[".toList ++ crane ++ "/".toList ++ crane
    ++ ":CRANE.STATISTIC.".toList ++ craneStatisticType.toList ++ ".".toList

/-- `re.search(re.escape(head) + r'([^\]]+)\]', s)` tried at one position:
the head literally, then a maximal non-`]` run (at least one) and `]`. -/
def detailAt (head cs : List Char) : Option (List Char) :=
  if isPrefixB head cs then
    match takeInner (cs.drop head.length) with
    | some (inner, _) => some inner
    | none => none
  else none

/-- `re.search`: first position where the tag-detail pattern matches. -/
def searchDetail (head : List Char) : List Char → Option (List Char)
  | [] => none
  | c :: cs =>
    match detailAt head (c :: cs) with
    | some r => some r
    | none => searchDetail head cs

/-! ## Search patterns (the cheap substring pre-filter) -/

/-- `RMG_START_NUM` (`CraneSats-Zip_db.py:41`). -/
def rmgStartNum : Nat := 1

/-- `RMG_END_NUM` (`CraneSats-Zip_db.py:42`). -/
def rmgEndNum : Nat := 12

/-- `{0:02d}` formatting of a crane number. -/
def twoDigit (n : Nat) : String :=
  if n < 10 then "0" ++ toString n else toString n

/-- `BASE_SEARCH_PATTERN_TEMPLATE.format(i, CRANE_STATISTIC_TYPE, tag_id)`
(`CraneSats-Zip_db.py:71`). -/
def mkSearchPattern (i : Nat) (tagId : String) : String :=
  "TAG:[RMG" ++ twoDigit i ++ "/RMG" ++ twoDigit i ++ ":CRANE.STATISTIC."
    ++ craneStatisticType ++ "." ++ tagId ++ "]"

/-- The cross product equipment range × tag ids (`CraneSats-Zip_db.py:72`). -/
def mkSearchPatterns (tagIds : List String) : List String :=
  (List.range (rmgEndNum + 1 - rmgStartNum)).flatMap fun k =>
    tagIds.map (mkSearchPattern (rmgStartNum + k))

/-! ## Tag resolution -/

/-- `tag_mapping.get(tag, tag)` (`CraneSats-Zip_db.py:103`): look the cleaned
tag up in the mapping (an association list with the dict's distinct keys)
and fall back to the cleaned tag itself. -/
def resolveTag (mapping : List (String × String)) (tag : String) : String :=
  match mapping.find? (fun p => p.1 == tag) with
  | some p => p.2
  | none => tag

/-! ## `process_line` -/

/-- One normalized metric sample as written by `database.insert_stat`. -/
structure StatRow where
  crane_number : String
  tag_name : String
  timestamp : DateTime
  result : String
deriving DecidableEq, BEq

/-- What `process_line` (`CraneSats-Zip_db.py:88-124`) does with one line:
either the line is not a candidate (no insert, no warning), or one of the
extraction stages fails (no insert, one warning logged), or the line parses
and exactly one insert of the resulting row is attempted. -/
inductive LineOutcome where
  | noCandidate
  | structFail
  | craneFail
  | detailFail
  | timestampFail
  | parsed (row : StatRow)
deriving DecidableEq

/-- Embedding of `process_line`, parameterized by the script's
`search_patterns` and `tag_mapping`. -/
def process_line (patterns : List String) (mapping : List (String × String))
    (line : String) : LineOutcome :=
  if patterns.any (fun p => containsSub p.toList line.toList) then
    match structMatch (pyStrip line.toList) with
    | none => .structFail
    | some (ts, tag, res) =>
      match searchCrane tag with
      | none => .craneFail
      | some crane =>
        match searchDetail (craneTagHead crane) tag with
        | none => .detailFail
        | some detail =>
          let cleaned := String.mk (cleanTag detail)
          let human := resolveTag mapping cleaned
          match tsParse ts with
          | none => .timestampFail
          | some dt =>
              .parsed ⟨String.mk crane, human, dt, String.mk (pyStrip res)⟩
  else .noCandidate

/-- The samples a line's outcome inserts (zero or one). -/
def lineInserts : LineOutcome → List StatRow
  | .parsed row => [row]
  | _ => []

/-- The warnings a line's outcome logs: each failed extraction stage of a
candidate line logs exactly one warning (`CraneSats-Zip_db.py:116-124`);
non-candidate and successfully parsed lines log none. -/
def lineWarnings : LineOutcome → Nat
  | .structFail => 1
  | .craneFail => 1
  | .detailFail => 1
  | .timestampFail => 1
  | _ => 0

example : pyStrip "  ab c  ".toList = "ab c".toList := by decide

example : containsSub "bc".toList "abcd".toList = true := by decide

example : tsParse "2024-01-02_03.04.05.123456".toList
    = some ⟨2024, 1, 2, 3, 4, 5, 123456⟩ := by decide

example : tsParse "2023-02-29_03.04.05.1".toList = none := by decide

example : tsParse "BADTS".toList = none := by decide

example :
    structMatch (pyStrip ("2024-01-02_03.04.05.123456: (42): TAG:[RMG01/RMG01:CRANE.STATISTIC.Perma.CMS]  777 ".toList))
    = some ("2024-01-02_03.04.05.123456".toList,
            "TAG:[RMG01/RMG01:CRANE.STATISTIC.Perma.CMS]".toList,
            "777".toList) := by decide

example :
    process_line ["TAG:[RMG01/RMG01:CRANE.STATISTIC.Perma.CMS]"] []
      "2024-01-02_03.04.05.123456: (42): TAG:[RMG01/RMG01:CRANE.STATISTIC.Perma.CMS] 777"
    = .parsed ⟨"RMG01", "CMS", ⟨2024, 1, 2, 3, 4, 5, 123456⟩, "777"⟩ := by decide

/-! ## The time-series store and ingestion

`database.insert_stat` is called with the natural key
`(crane_number, tag_name, timestamp)` and the value (`CraneSats-Zip_db.py:109-114`). -/

/-- The natural key of a sample row. -/
def rowKey (r : StatRow) : String × String × DateTime :=
  (r.crane_number, r.tag_name, r.timestamp)

/-- Whether some row of the store has the given natural key. -/
def hasKey (db : List StatRow) (k : String × String × DateTime) : Bool :=
  db.any (fun r => decide (rowKey r = k))

/-- Modelled from the spec: `database.insert_stat` / `insert_sample`
(§4.3, `database.py` is not among the staged sources) — "idempotent per
natural key": a write whose key `(entity_id, metric_name, timestamp)` is
already present inserts nothing, otherwise the row is appended. -/
def insert_stat (db : List StatRow) (r : StatRow) : List StatRow :=
  if hasKey db (rowKey r) then db else db ++ [r]

/-- One step of the main parsing loop: a successfully parsed line attempts
exactly one `insert_stat` write; every other outcome leaves the store
unchanged. -/
def ingestLine (patterns : List String) (mapping : List (String × String))
    (db : List StatRow) (line : String) : List StatRow :=
  match process_line patterns mapping line with
  | .parsed row => insert_stat db row
  | _ => db

/-- Ingestion of a whole file: `process_line` over every line in order. -/
def ingestFile (patterns : List String) (mapping : List (String × String))
    (db : List StatRow) (lines : List String) : List StatRow :=
  lines.foldl (ingestLine patterns mapping) db

lemma hasKey_insert_stat_of (db : List StatRow) (r : StatRow)
    (k : String × String × DateTime) (h : hasKey db k = true) :
    hasKey (insert_stat db r) k = true := by
  unfold insert_stat
  split
  · exact h
  · unfold hasKey at h ⊢
    simp only [List.any_append, Bool.or_eq_true]
    exact Or.inl h

lemma hasKey_insert_stat_self (db : List StatRow) (r : StatRow) :
    hasKey (insert_stat db r) (rowKey r) = true := by
  unfold insert_stat
  split
  · assumption
  · unfold hasKey
    simp

lemma hasKey_ingestLine_of (patterns : List String)
    (mapping : List (String × String)) (db : List StatRow) (line : String)
    (k : String × String × DateTime) (h : hasKey db k = true) :
    hasKey (ingestLine patterns mapping db line) k = true := by
  unfold ingestLine
  split
  · exact hasKey_insert_stat_of db _ k h
  · exact h

lemma hasKey_ingestFile_of (patterns : List String)
    (mapping : List (String × String)) (lines : List String) :
    ∀ (db : List StatRow) (k : String × String × DateTime),
      hasKey db k = true → hasKey (ingestFile patterns mapping db lines) k = true := by
  induction lines with
  | nil => intro db k h; exact h
  | cons l ls ih =>
      intro db k h
      exact ih (ingestLine patterns mapping db l) k
        (hasKey_ingestLine_of patterns mapping db l k h)

lemma ingestLine_of_covered (patterns : List String)
    (mapping : List (String × String)) (db : List StatRow) (line : String)
    (h : ∀ row, process_line patterns mapping line = .parsed row →
        hasKey db (rowKey row) = true) :
    ingestLine patterns mapping db line = db := by
  unfold ingestLine
  split
  · next row heq =>
      unfold insert_stat
      simp [h row heq]
  · rfl

lemma ingestFile_of_covered (patterns : List String)
    (mapping : List (String × String)) (lines : List String) :
    ∀ db : List StatRow,
      (∀ l ∈ lines, ∀ row, process_line patterns mapping l = .parsed row →
          hasKey db (rowKey row) = true) →
      ingestFile patterns mapping db lines = db := by
  induction lines with
  | nil => intro db _; rfl
  | cons l ls ih =>
      intro db h
      have h0 : ingestLine patterns mapping db l = db :=
        ingestLine_of_covered patterns mapping db l
          (fun row hr => h l (List.mem_cons_self l ls) row hr)
      show ingestFile patterns mapping (ingestLine patterns mapping db l) ls = db
      rw [h0]
      exact ih db (fun l' hl' => h l' (List.mem_cons_of_mem l hl'))

lemma covered_after_ingestFile (patterns : List String)
    (mapping : List (String × String)) (lines : List String) :
    ∀ db : List StatRow, ∀ l ∈ lines, ∀ row,
      process_line patterns mapping l = .parsed row →
      hasKey (ingestFile patterns mapping db lines) (rowKey row) = true := by
  induction lines with
  | nil => intro db l hl; exact absurd hl (List.not_mem_nil l)
  | cons a ls ih =>
      intro db l hl row hrow
      rcases List.mem_cons.mp hl with h | h
      · subst h
        show hasKey (ingestFile patterns mapping (ingestLine patterns mapping db l) ls)
            (rowKey row) = true
        apply hasKey_ingestFile_of
        unfold ingestLine
        rw [hrow]
        exact hasKey_insert_stat_self db row
      · exact ih (ingestLine patterns mapping db a) l h row hrow

/-! ## File discovery and ordering

`CraneSats-Zip_db.py:79-81`: list the directory's `.log`/`.zip` files,
sort by modification time most-recent-first (Python's stable sort with
`reverse=True`), and keep the first `NUM_RECENT_FILES`. -/

/-- A directory entry: name and modification time. -/
structure FileInfo where
  name : String
  mtime : Nat
deriving DecidableEq

/-- `NUM_RECENT_FILES` (`CraneSats-Zip_db.py:39`). -/
def NUM_RECENT_FILES : Nat := 9999

/-- Lower-case a character list (Python `str.lower()` on ASCII names). -/
def lowerChars (cs : List Char) : List Char :=
  cs.map Char.toLower

/-- `endsWithB suf cs`: Python `str.endswith`. -/
def endsWithB (suf cs : List Char) : Bool :=
  isPrefixB suf.reverse cs.reverse

/-- The file filter `f.lower().endswith('.zip') or f.lower().endswith('.log')`. -/
def isLogOrZip (f : FileInfo) : Bool :=
  endsWithB ".zip".toList (lowerChars f.name.toList)
    || endsWithB ".log".toList (lowerChars f.name.toList)

/-- Stable insertion into a most-recent-first list: the new element (which
came earlier in the original order) goes before every kept element whose
mtime it equals or exceeds. -/
def insertByMtime (x : FileInfo) : List FileInfo → List FileInfo
  | [] => [x]
  | y :: ys => if y.mtime ≤ x.mtime then x :: y :: ys else y :: insertByMtime x ys

/-- Python's stable `sort(key=mtime, reverse=True)`: most recently modified
first, ties in original order. -/
def sortByMtimeDesc : List FileInfo → List FileInfo
  | [] => []
  | x :: xs => insertByMtime x (sortByMtimeDesc xs)

/-- `files_to_process` (`CraneSats-Zip_db.py:79-81`): filter to `.log`/`.zip`,
sort most-recent-first, take the first `cap` files.  The script instantiates
`cap` with `NUM_RECENT_FILES`. -/
def files_to_process (cap : Nat) (files : List FileInfo) : List FileInfo :=
  (sortByMtimeDesc (files.filter isLogOrZip)).take cap

lemma mem_insertByMtime (x a : FileInfo) (l : List FileInfo) :
    a ∈ insertByMtime x l ↔ a = x ∨ a ∈ l := by
  induction l with
  | nil => simp [insertByMtime]
  | cons y ys ih =>
      unfold insertByMtime
      split
      · simp
      · simp only [List.mem_cons, ih]
        tauto

lemma pairwise_insertByMtime (x : FileInfo) (l : List FileInfo)
    (h : l.Pairwise (fun a b => b.mtime ≤ a.mtime)) :
    (insertByMtime x l).Pairwise (fun a b => b.mtime ≤ a.mtime) := by
  induction l with
  | nil => simp [insertByMtime]
  | cons y ys ih =>
      rcases List.pairwise_cons.mp h with ⟨hy, hys⟩
      unfold insertByMtime
      split
      · next hle =>
          refine List.pairwise_cons.mpr ⟨?_, h⟩
          intro b hb
          rcases List.mem_cons.mp hb with hb | hb
          · subst hb; exact hle
          · exact le_trans (hy b hb) hle
      · next hgt =>
          refine List.pairwise_cons.mpr ⟨?_, ih hys⟩
          intro b hb
          rcases (mem_insertByMtime x b ys).mp hb with hb | hb
          · subst hb; omega
          · exact hy b hb

lemma pairwise_sortByMtimeDesc (l : List FileInfo) :
    (sortByMtimeDesc l).Pairwise (fun a b => b.mtime ≤ a.mtime) := by
  induction l with
  | nil => simp [sortByMtimeDesc]
  | cons x xs ih => exact pairwise_insertByMtime x _ ih

lemma mem_sortByMtimeDesc (a : FileInfo) (l : List FileInfo) :
    a ∈ sortByMtimeDesc l ↔ a ∈ l := by
  induction l with
  | nil => simp [sortByMtimeDesc]
  | cons x xs ih =>
      unfold sortByMtimeDesc
      rw [mem_insertByMtime, ih]
      simp

/-! ## `migrate_db.migrate`

A model of the SQLite state the script manipulates: each table either
exists (with its rows) or does not.  `migrate` (`migrate_db.py:18-72`)
connects, drops `service_log` if it exists, creates a fresh empty
`service_log`, reads `count(*)` from `crane_stats` as a verification step,
and commits; any `sqlite3.Error` is caught, in which case the commit is
never reached and the connection's uncommitted changes are discarded. -/

/-- A two-table SQLite database; `none` means the table does not exist.
`σ` is the row type of `crane_stats`, `τ` of `service_log`. -/
structure SqliteDb (σ τ : Type) where
  crane_stats : Option (List σ)
  service_log : Option (List τ)
deriving DecidableEq

/-- `DROP TABLE IF EXISTS service_log` (`migrate_db.py:36`). -/
def dropServiceLogIfExists {σ τ : Type} (db : SqliteDb σ τ) : SqliteDb σ τ :=
  { db with service_log := none }

/-- `CREATE TABLE service_log (...)` (`migrate_db.py:41-49`): fails if the
table already exists, else creates it empty. -/
def createServiceLog {σ τ : Type} (db : SqliteDb σ τ) : Except String (SqliteDb σ τ) :=
  match db.service_log with
  | some _ => .error "table service_log already exists"
  | none => .ok { db with service_log := some [] }

/-- `SELECT count(*) FROM crane_stats` (`migrate_db.py:53`): fails if the
table does not exist. -/
def selectCountCraneStats {σ τ : Type} (db : SqliteDb σ τ) : Except String Nat :=
  match db.crane_stats with
  | none => .error "no such table: crane_stats"
  | some rows => .ok rows.length

/-- Embedding of `migrate_db.migrate`: `none` models a missing database
file (the script returns without touching anything); a caught
`sqlite3.Error` leaves the on-disk state unchanged because `conn.commit()`
is only reached on the success path. -/
def migrate {σ τ : Type} (file : Option (SqliteDb σ τ)) : Option (SqliteDb σ τ) :=
  match file with
  | none => none
  | some db =>
    let db1 := dropServiceLogIfExists db
    match createServiceLog db1 with
    | .error _ => some db
    | .ok db2 =>
      match selectCountCraneStats db2 with
      | .error _ => some db
      | .ok _ => some db2

/-! ## `auth.py`

`load_users` (`auth.py:10-39`) and `verify_admin_password` (`auth.py:41-67`),
embedded from the staged source.  The state of `users.json` on disk is a
parameter: missing file, malformed JSON, JSON without a usable `"users"`
list, or a parsed list of user objects (each key possibly absent). -/

/-- One entry of the `"users"` list; each field may be absent
(`user.get(..)` returns `None` then). -/
structure UserEntry where
  username : Option String
  password : Option String
  role : Option String
deriving DecidableEq

/-- The possible states of `users.json`. -/
inductive UsersFile where
  | missing
  | malformed
  | noUsersKey
  | withUsers (users : List UserEntry)

/-- Embedding of `auth.load_users`: a missing file, malformed JSON or an
object without a `"users"` key all yield the empty list; otherwise the
parsed list. -/
def load_users : UsersFile → List UserEntry
  | .missing => []
  | .malformed => []
  | .noUsersKey => []
  | .withUsers us => us

/-- The loop condition of `auth.py:61`:
`user.get("role") == "admin" and user.get("password") == password`. -/
def adminMatches (password : String) (u : UserEntry) : Bool :=
  u.role == some "admin" && u.password == some password

/-- The `for user in all_users` loop of `auth.py:58-67`: return the first
matching user's `username` field (possibly absent), else `None`. -/
def verifyLoop (password : String) : List UserEntry → Option String
  | [] => none
  | u :: rest =>
      if adminMatches password u then u.username else verifyLoop password rest

/-- Embedding of `auth.verify_admin_password`. -/
def verify_admin_password (file : UsersFile) (password : String) : Option String :=
  verifyLoop password (load_users file)

lemma verifyLoop_eq_find (password : String) (l : List UserEntry) :
    verifyLoop password l
      = (l.find? (adminMatches password)).bind UserEntry.username := by
  induction l with
  | nil => rfl
  | cons u rest ih =>
      unfold verifyLoop
      cases h : adminMatches password u with
      | true => simp [List.find?_cons, h]
      | false => simp [List.find?_cons, h, ih]

/-! ## Dates as day numbers

The engine works with calendar dates at day granularity.  Dates are day
numbers (days since 1970-01-01, negative before); `daysFromCivil` converts
a Gregorian calendar date, so concrete dates of the spec can be written
down and computed with. -/

/-- Day number of the Gregorian date `y-m-d` (days since 1970-01-01). -/
def daysFromCivil (y m d : Int) : Int :=
  let y' := if m ≤ 2 then y - 1 else y
  let era := (if 0 ≤ y' then y' else y' - 399) / 400
  let yoe := y' - era * 400
  let mp := (m + 9) % 12
  let doy := (153 * mp + 2) / 5 + d - 1
  let doe := yoe * 365 + yoe / 4 - yoe / 100 + doy
  era * 146097 + doe - 719468

example : daysFromCivil 1970 1 1 = 0 := by decide

example : daysFromCivil 2025 6 1 + 365 = daysFromCivil 2026 6 1 := by decide

/-! ## The prediction engine

`prediction_engine.py` is not among the staged sources (only its callers
and tests are), so the engine below is modelled from the spec, §4.4 and
§3/§6: task configuration, service history, the time-series query
primitives, per-crane usage deltas, spreader aggregation over the
equipment-assignment relation, and the calendar/usage branch of
`predict_service_date`.  Metric samples carry integer cumulative counter
values; the usage rate and `days_remaining` of the usage branch are exact
rationals. -/

/-- Modelled from the spec: one row of `metric_samples` (§6) as the engine
reads it — entity, canonical metric name, timestamp (day number), value. -/
structure MetricSample where
  entity_id : String
  metric_name : String
  ts : Int
  value : Int
deriving DecidableEq

/-- Modelled from the spec: one `ServiceLogRecord` (§3). -/
structure ServiceRecord where
  entity_id : String
  entity_type : String
  task_id : String
  service_date : Int
  serviced_at_value : Option Int
deriving DecidableEq

/-- Modelled from the spec: one `TaskConfig` row (§3): the driving metric
(`tag_name`, empty if calendar-only), the usage threshold (`service_limit`,
absent if empty) and the calendar threshold. -/
structure TaskConfig where
  tag_name : String
  service_limit : Option Int
  service_interval_days : Int
deriving DecidableEq

/-- A task is usage-based iff `tag_name` and `service_limit` are both
present and non-empty (§3); otherwise it is calendar-based. -/
def TaskConfig.usageBased (c : TaskConfig) : Bool :=
  c.tag_name != "" && c.service_limit.isSome

/-- The engine's output (§3, §6). -/
structure PredictionResult where
  predicted_date : Option Int
  days_remaining : Option Rat
  current_value : Int
  error : Option String
deriving DecidableEq

/-- A failure result: `error` populated, nothing predicted. -/
def errResult (msg : String) : PredictionResult :=
  ⟨none, none, 0, some msg⟩

/-- The non-fatal "cannot extrapolate" result of the usage branch (§4.4):
`predicted_date = None`, a descriptive condition in `error`, and the usage
value that was computed. -/
def cannotExtrapolate (usage : Int) : PredictionResult :=
  ⟨none, none, usage, some "cannot extrapolate: zero usage rate since baseline"⟩

/-- Modelled from the spec: the samples of one entity/metric stream. -/
def samplesFor (db : List MetricSample) (e m : String) : List MetricSample :=
  db.filter (fun s => s.entity_id == e && s.metric_name == m)

/-- The sample with the largest timestamp (first such on ties). -/
def latestIn : List MetricSample → Option MetricSample :=
  List.foldl
    (fun acc s =>
      match acc with
      | none => some s
      | some b => if b.ts < s.ts then some s else acc)
    none

/-- The sample with the smallest timestamp (first such on ties). -/
def earliestIn : List MetricSample → Option MetricSample :=
  List.foldl
    (fun acc s =>
      match acc with
      | none => some s
      | some b => if s.ts < b.ts then some s else acc)
    none

/-- Modelled from the spec: `get_latest_value` (§4.3). -/
def get_latest_value (db : List MetricSample) (e m : String) : Option MetricSample :=
  latestIn (samplesFor db e m)

/-- Modelled from the spec: the earliest available sample of a stream. -/
def earliestSample (db : List MetricSample) (e m : String) : Option MetricSample :=
  earliestIn (samplesFor db e m)

/-- Modelled from the spec: `value_at_or_before` — the value of the latest
sample with timestamp at or before `t`, absent if there is none. -/
def valueAtOrBefore (db : List MetricSample) (e m : String) (t : Int) : Option Int :=
  (latestIn ((samplesFor db e m).filter (fun s => s.ts ≤ t))).map (·.value)

/-- Modelled from the spec: the latest `ServiceLogRecord` for a compound
key (§3: the record with the maximal `service_date` is authoritative). -/
def get_last_service_record (svc : List ServiceRecord) (e et task : String) :
    Option ServiceRecord :=
  (svc.filter (fun r => r.entity_id == e && r.entity_type == et && r.task_id == task)).foldl
    (fun acc r =>
      match acc with
      | none => some r
      | some b => if b.service_date < r.service_date then some r else acc)
    none

/-- Modelled from the spec: the `equipment_assignment` relation (§6) as
pairs `(composite_entity_id, member_entity_id)`. -/
def assignedCranes (assign : List (String × String)) (spreader : String) :
    List String :=
  (assign.filter (fun p => p.1 == spreader)).map (·.2)

/-- Modelled from the spec (§4.4 step 3): one crane's net increase of the
metric between the baseline and now.  The baseline value is the value at
or before the last-service timestamp (zero if no sample is that old), or
the earliest available sample's value when there is no prior service; a
crane with no samples contributes nothing. -/
def craneDelta (db : List MetricSample) (metric : String) (baseTs : Option Int)
    (crane : String) : Int :=
  match get_latest_value db crane metric with
  | none => 0
  | some latest =>
      let base : Int :=
        match baseTs with
        | some t => (valueAtOrBefore db crane metric t).getD 0
        | none =>
            match earliestSample db crane metric with
            | some e => e.value
            | none => 0
      latest.value - base

/-- Modelled from the spec (§4.4 step 3): a spreader's usage is the sum of
the per-crane net increases over its assignment set. -/
def spreaderUsage (db : List MetricSample) (assign : List (String × String))
    (metric spreader : String) (baseTs : Option Int) : Int :=
  ((assignedCranes assign spreader).map (craneDelta db metric baseTs)).sum

/-- Modelled from the spec (§4.4 step 3): current usage accrued since the
baseline — a simple entity reads its own stream, a spreader aggregates
over its assigned cranes. -/
def usageSinceBaseline (db : List MetricSample) (assign : List (String × String))
    (metric ety eid : String) (last : Option ServiceRecord) : Int :=
  if ety == "spreader" then
    spreaderUsage db assign metric eid (last.map (·.service_date))
  else
    craneDelta db metric (last.map (·.service_date)) eid

/-- Modelled from the spec (§4.4 steps 2 and 4): the day the usage window
starts — the last service date, or the earliest available telemetry when
there is no prior service (for a spreader, the earliest over its assigned
cranes); absent when there is neither. -/
def baselineDay (db : List MetricSample) (assign : List (String × String))
    (metric ety eid : String) (last : Option ServiceRecord) : Option Int :=
  match last with
  | some r => some r.service_date
  | none =>
      if ety == "spreader" then
        ((assignedCranes assign eid).filterMap
            (fun c => (earliestSample db c metric).map (·.ts))).foldl
          (fun acc t =>
            match acc with
            | none => some t
            | some b => if t < b then some t else acc)
          none
      else (earliestSample db eid metric).map (·.ts)

/-- Modelled from the spec: `predict_service_date` (§4.4, §6).  The stores
are `Except`-valued to model storage failure, which — like every other
failure mode — is reported through the `error` field, never raised (§4.4
error policy).  In the usage branch, `rate = usage / elapsed`; since the
zero-elapsed case is already handled, `rate = 0` is tested as `usage = 0`,
and the division `days_remaining = remaining / rate` happens only after
both guards. -/
def predict_service_date (cfg : List (String × TaskConfig))
    (assign : List (String × String))
    (tsStore : Except String (List MetricSample))
    (svcStore : Except String (List ServiceRecord))
    (today : Int) (entity_id entity_type task_id : String) : PredictionResult :=
  match cfg.find? (fun p => p.1 == task_id) with
  | none => errResult "unknown task"
  | some (_, c) =>
    match tsStore with
    | .error e => errResult ("storage error: " ++ e)
    | .ok db =>
      match svcStore with
      | .error e => errResult ("storage error: " ++ e)
      | .ok svc =>
        let last := get_last_service_record svc entity_id entity_type task_id
        if c.usageBased then
          let usage := usageSinceBaseline db assign c.tag_name entity_type entity_id last
          match baselineDay db assign c.tag_name entity_type entity_id last with
          | none => cannotExtrapolate usage
          | some b =>
            let elapsed : Int := today - b
            if elapsed = 0 then cannotExtrapolate usage
            else if usage = 0 then cannotExtrapolate usage
            else
              let rate : Rat := (usage : Rat) / (elapsed : Rat)
              let remaining : Int := c.service_limit.getD 0 - usage
              let dr : Rat := (remaining : Rat) / rate
              ⟨some (today + dr.floor), some dr, usage, none⟩
        else
          match last with
          | none => errResult "no service baseline for calendar task"
          | some r =>
            let pd := r.service_date + c.service_interval_days
            ⟨some pd, some ((pd - today : Int) : Rat), 0, none⟩

/-! ## Claims -/

/-- C1: Ingestion is idempotent — running `process_line` over every line of
a file twice, each successful parse attempting one `insert_stat` write
keyed by `(entity_id, metric_name, timestamp)`, leaves the time-series
store with exactly the same rows (hence the same row count) as running it
once. -/
theorem claim1_ingest_idempotent (patterns : List String)
    (mapping : List (String × String)) (db : List StatRow) (lines : List String) :
    ingestFile patterns mapping (ingestFile patterns mapping db lines) lines
      = ingestFile patterns mapping db lines ∧
    (ingestFile patterns mapping (ingestFile patterns mapping db lines) lines).length
      = (ingestFile patterns mapping db lines).length := by
  have h := ingestFile_of_covered patterns mapping lines
    (ingestFile patterns mapping db lines)
    (covered_after_ingestFile patterns mapping lines db)
  exact ⟨h, by rw [h]⟩

/-- C8 counterexample: the processed list is not *strictly* decreasing in
modification time — two `.log` files with equal mtimes are both processed,
in a tie. -/
theorem claim8_strict_order_counterexample :
    ¬ (files_to_process NUM_RECENT_FILES
          [⟨"a.log", 5⟩, ⟨"b.log", 5⟩]).Pairwise
        (fun a b => b.mtime < a.mtime) := by
  decide

/-- C8 (amended): the parser processes the `.log` and `.zip` files in
non-increasing order of modification time (most recently modified first,
ties preserved in directory order), processes at most `cap`
(= `NUM_RECENT_FILES`) files per run, and every processed file is a
`.log`/`.zip` file of the directory. -/
theorem claim8_order_and_cap (cap : Nat) (files : List FileInfo) :
    (files_to_process cap files).Pairwise (fun a b => b.mtime ≤ a.mtime) ∧
    (files_to_process cap files).length ≤ cap ∧
    ∀ f ∈ files_to_process cap files, f ∈ files ∧ isLogOrZip f = true := by
  refine ⟨?_, ?_, ?_⟩
  · exact List.Pairwise.sublist (List.take_sublist _ _) (pairwise_sortByMtimeDesc _)
  · exact List.length_take_le cap _
  · intro f hf
    have h1 : f ∈ sortByMtimeDesc (files.filter isLogOrZip) :=
      List.mem_of_mem_take hf
    have h2 := (mem_sortByMtimeDesc f _).mp h1
    exact ⟨(List.mem_filter.mp h2).1, (List.mem_filter.mp h2).2⟩

/-- C9: if the database file exists and contains a `crane_stats` table,
`migrate` leaves every `crane_stats` row unchanged and replaces
`service_log` (dropped if present) by a freshly created empty table, so
the service history is empty afterwards regardless of its prior
contents. -/
theorem claim9_migrate_frame (σ τ : Type) (db : SqliteDb σ τ) (rows : List σ)
    (h : db.crane_stats = some rows) :
    migrate (some db) = some ⟨some rows, some []⟩ := by
  unfold migrate dropServiceLogIfExists createServiceLog selectCountCraneStats
  simp [h]

/-- C9 witness: a database whose `service_log` holds a record loses it,
while `crane_stats` survives verbatim. -/
theorem claim9_migrate_frame_witness :
    (⟨some [1, 2, 3], some [9]⟩ : SqliteDb Nat Nat).crane_stats = some [1, 2, 3] ∧
    migrate (some (⟨some [1, 2, 3], some [9]⟩ : SqliteDb Nat Nat))
      = some ⟨some [1, 2, 3], some []⟩ :=
  ⟨rfl, claim9_migrate_frame Nat Nat ⟨some [1, 2, 3], some [9]⟩ [1, 2, 3] rfl⟩

/-- C10: `verify_admin_password p` returns the `username` field of the
first user entry whose `role` is `"admin"` and whose `password` is `p`,
and `none` when no entry matches; a missing, malformed or `"users"`-less
`users.json` makes `load_users` return the empty list, so verification
fails (returns `none`) without raising. -/
theorem claim10_verify_admin_password (file : UsersFile) (p : String) :
    verify_admin_password file p
      = ((load_users file).find? (adminMatches p)).bind UserEntry.username ∧
    load_users .missing = [] ∧
    load_users .malformed = [] ∧
    load_users .noUsersKey = [] ∧
    verify_admin_password .missing p = none ∧
    verify_admin_password .malformed p = none ∧
    verify_admin_password .noUsersKey p = none :=
  ⟨verifyLoop_eq_find p _, rfl, rfl, rfl, rfl, rfl, rfl⟩

lemma predict_usage_current_value (cfg : List (String × TaskConfig))
    (assign : List (String × String)) (db : List MetricSample)
    (svc : List ServiceRecord) (today : Int) (eid ety task a : String)
    (c : TaskConfig)
    (hfind : cfg.find? (fun p => p.1 == task) = some (a, c))
    (husage : c.usageBased = true) :
    (predict_service_date cfg assign (.ok db) (.ok svc) today eid ety task).current_value
      = usageSinceBaseline db assign c.tag_name ety eid
          (get_last_service_record svc eid ety task) := by
  unfold predict_service_date
  rw [hfind]
  simp only [husage, if_true]
  cases hb : baselineDay db assign c.tag_name ety eid
      (get_last_service_record svc eid ety task) with
  | none => rfl
  | some b =>
      by_cases h1 : today - b = 0
      · simp [h1, cannotExtrapolate]
      · by_cases h2 : usageSinceBaseline db assign c.tag_name ety eid
            (get_last_service_record svc eid ety task) = 0
        · simp [h1, h2, cannotExtrapolate]
        · simp [h1, h2]

/-- C2: for a spreader entity with a non-empty assignment set (and a
usage-based task), `predict_service_date` computes the current usage as
the sum, over each assigned crane, of the crane's latest sample value
minus its value at or before the last-service timestamp — the earliest
available sample's value when there is no prior service — with a crane
that has no sample at or before the baseline contributing its full latest
value (baseline treated as zero). -/
theorem claim2_spreader_aggregation (cfg : List (String × TaskConfig))
    (assign : List (String × String)) (db : List MetricSample)
    (svc : List ServiceRecord) (today : Int) (eid task a : String)
    (c : TaskConfig)
    (hfind : cfg.find? (fun p => p.1 == task) = some (a, c))
    (husage : c.usageBased = true)
    (hne : assignedCranes assign eid ≠ []) :
    (predict_service_date cfg assign (.ok db) (.ok svc) today eid "spreader" task).current_value
      = ((assignedCranes assign eid).map (fun crane =>
          match get_latest_value db crane c.tag_name with
          | none => 0
          | some latest =>
              latest.value -
                (match get_last_service_record svc eid "spreader" task with
                 | some r => (valueAtOrBefore db crane c.tag_name r.service_date).getD 0
                 | none =>
                     match earliestSample db crane c.tag_name with
                     | some e => e.value
                     | none => 0))).sum := by
  rw [predict_usage_current_value cfg assign db svc today eid "spreader" task a c hfind husage]
  unfold usageSinceBaseline spreaderUsage
  simp only [beq_self_eq_true, if_true]
  congr 1
  apply List.map_congr_left
  intro crane _
  cases hls : get_last_service_record svc eid "spreader" task with
  | none => simp [craneDelta, hls]
  | some r => simp [craneDelta, hls]

/-- C4: for a calendar-based task (not usage-based) with an existing last
service record, `predict_service_date` returns
`predicted_date = last_service_date + service_interval_days` and
`days_remaining = predicted_date − today` in whole days, with no error. -/
theorem claim4_calendar_prediction (cfg : List (String × TaskConfig))
    (assign : List (String × String)) (db : List MetricSample)
    (svc : List ServiceRecord) (today : Int) (eid ety task a : String)
    (c : TaskConfig) (r : ServiceRecord)
    (hfind : cfg.find? (fun p => p.1 == task) = some (a, c))
    (hcal : c.usageBased = false)
    (hlast : get_last_service_record svc eid ety task = some r) :
    (predict_service_date cfg assign (.ok db) (.ok svc) today eid ety task).predicted_date
      = some (r.service_date + c.service_interval_days) ∧
    (predict_service_date cfg assign (.ok db) (.ok svc) today eid ety task).days_remaining
      = some (((r.service_date + c.service_interval_days - today : Int) : Rat)) ∧
    (predict_service_date cfg assign (.ok db) (.ok svc) today eid ety task).error
      = none := by
  unfold predict_service_date
  rw [hfind]
  simp [hcal, hlast]

/-- C4 witness: `last_service_date = 2025-06-01`, `service_interval_days
= 365` yields `predicted_date = 2026-06-01` (evaluated on a concrete
calendar-only task and service log). -/
theorem claim4_calendar_prediction_witness :
    ([("ac_unit1_filter", ⟨"", none, 365⟩)] : List (String × TaskConfig)).find?
        (fun p => p.1 == "ac_unit1_filter")
      = some ("ac_unit1_filter", ⟨"", none, 365⟩) ∧
    (⟨"", none, 365⟩ : TaskConfig).usageBased = false ∧
    get_last_service_record
        [⟨"RMG01", "crane", "ac_unit1_filter", daysFromCivil 2025 6 1, some 100000⟩]
        "RMG01" "crane" "ac_unit1_filter"
      = some ⟨"RMG01", "crane", "ac_unit1_filter", daysFromCivil 2025 6 1, some 100000⟩ ∧
    (predict_service_date [("ac_unit1_filter", ⟨"", none, 365⟩)] [] (.ok [])
        (.ok [⟨"RMG01", "crane", "ac_unit1_filter", daysFromCivil 2025 6 1, some 100000⟩])
        (daysFromCivil 2025 10 12) "RMG01" "crane" "ac_unit1_filter").predicted_date
      = some (daysFromCivil 2025 6 1 + 365) ∧
    (predict_service_date [("ac_unit1_filter", ⟨"", none, 365⟩)] [] (.ok [])
        (.ok [⟨"RMG01", "crane", "ac_unit1_filter", daysFromCivil 2025 6 1, some 100000⟩])
        (daysFromCivil 2025 10 12) "RMG01" "crane" "ac_unit1_filter").predicted_date
      = some (daysFromCivil 2026 6 1) :=
  ⟨by decide, by decide, by decide,
   (claim4_calendar_prediction [("ac_unit1_filter", ⟨"", none, 365⟩)] [] []
      [⟨"RMG01", "crane", "ac_unit1_filter", daysFromCivil 2025 6 1, some 100000⟩]
      (daysFromCivil 2025 10 12) "RMG01" "crane" "ac_unit1_filter" "ac_unit1_filter"
      ⟨"", none, 365⟩
      ⟨"RMG01", "crane", "ac_unit1_filter", daysFromCivil 2025 6 1, some 100000⟩
      (by decide) (by decide) (by decide)).1,
   by decide⟩

/-- C5: for a usage-based task, whenever the elapsed days since the
baseline are zero or the usage rate `usage / elapsed` is zero or undefined
(no baseline at all), the engine does not reach the division
`days_remaining = remaining / rate`: it returns `predicted_date = none`,
`days_remaining = none` and a descriptive non-fatal condition in `error`
instead of raising or dividing by zero. -/
theorem claim5_zero_rate_guard (cfg : List (String × TaskConfig))
    (assign : List (String × String)) (db : List MetricSample)
    (svc : List ServiceRecord) (today : Int) (eid ety task a : String)
    (c : TaskConfig)
    (hfind : cfg.find? (fun p => p.1 == task) = some (a, c))
    (husage : c.usageBased = true)
    (hguard :
      baselineDay db assign c.tag_name ety eid
          (get_last_service_record svc eid ety task) = none ∨
      ∃ b, baselineDay db assign c.tag_name ety eid
            (get_last_service_record svc eid ety task) = some b ∧
        (today - b = 0 ∨
          (usageSinceBaseline db assign c.tag_name ety eid
              (get_last_service_record svc eid ety task) : Rat)
            / ((today - b : Int) : Rat) = 0)) :
    (predict_service_date cfg assign (.ok db) (.ok svc) today eid ety task).predicted_date
      = none ∧
    (predict_service_date cfg assign (.ok db) (.ok svc) today eid ety task).days_remaining
      = none ∧
    (predict_service_date cfg assign (.ok db) (.ok svc) today eid ety task).error
      = some "cannot extrapolate: zero usage rate since baseline" := by
  unfold predict_service_date
  rw [hfind]
  simp only [husage, if_true]
  rcases hguard with hb | ⟨b, hb, hz⟩
  · rw [hb]
    exact ⟨rfl, rfl, rfl⟩
  · rw [hb]
    rcases hz with h1 | h2
    · simp [h1, cannotExtrapolate]
    · by_cases h1 : today - b = 0
      · simp [h1, cannotExtrapolate]
      · have hcast : ((today - b : Int) : Rat) ≠ 0 := by
          exact_mod_cast h1
        have husage0 : usageSinceBaseline db assign c.tag_name ety eid
            (get_last_service_record svc eid ety task) = 0 := by
          rcases div_eq_zero_iff.mp h2 with h | h
          · exact_mod_cast h
          · exact absurd h hcast
        simp [h1, husage0, cannotExtrapolate]

/-- C5 witness: a usage-based task whose last service happened today
(elapsed days zero) is reported as non-extrapolatable, not divided by
zero. -/
theorem claim5_zero_rate_guard_witness :
    ([("t", ⟨"m", some 1000, 0⟩)] : List (String × TaskConfig)).find?
        (fun p => p.1 == "t") = some ("t", ⟨"m", some 1000, 0⟩) ∧
    (⟨"m", some 1000, 0⟩ : TaskConfig).usageBased = true ∧
    (predict_service_date [("t", ⟨"m", some 1000, 0⟩)] []
        (.ok [⟨"RMG01", "m", 0, 100⟩])
        (.ok [⟨"RMG01", "crane", "t", 10, some 100⟩]) 10 "RMG01" "crane" "t").predicted_date
      = none ∧
    (predict_service_date [("t", ⟨"m", some 1000, 0⟩)] []
        (.ok [⟨"RMG01", "m", 0, 100⟩])
        (.ok [⟨"RMG01", "crane", "t", 10, some 100⟩]) 10 "RMG01" "crane" "t").error
      = some "cannot extrapolate: zero usage rate since baseline" :=
  ⟨by decide, by decide,
   (claim5_zero_rate_guard [("t", ⟨"m", some 1000, 0⟩)] []
      [⟨"RMG01", "m", 0, 100⟩] [⟨"RMG01", "crane", "t", 10, some 100⟩]
      10 "RMG01" "crane" "t" "t" ⟨"m", some 1000, 0⟩
      (by decide) (by decide)
      (Or.inr ⟨10, by decide, Or.inl (by decide)⟩)).1,
   (claim5_zero_rate_guard [("t", ⟨"m", some 1000, 0⟩)] []
      [⟨"RMG01", "m", 0, 100⟩] [⟨"RMG01", "crane", "t", 10, some 100⟩]
      10 "RMG01" "crane" "t" "t" ⟨"m", some 1000, 0⟩
      (by decide) (by decide)
      (Or.inr ⟨10, by decide, Or.inl (by decide)⟩)).2.2⟩

/-- C3: `predict_service_date` always returns a `PredictionResult` (it is a
total function — the embedding of "never raises"), and its `error` field is
`none` exactly on the success path: the task id is known, both stores are
readable, and the task's branch can produce a date (for a usage-based task
a baseline exists with non-zero elapsed days and non-zero accrued usage,
for a calendar task a last service record exists).  Every failure mode —
unknown task id, storage failure, missing calendar baseline, impossible
extrapolation — populates `error`, so callers can distinguish success from
failure solely by inspecting `error`. -/
theorem claim3_error_discipline (cfg : List (String × TaskConfig))
    (assign : List (String × String))
    (tsStore : Except String (List MetricSample))
    (svcStore : Except String (List ServiceRecord))
    (today : Int) (eid ety task : String) :
    (predict_service_date cfg assign tsStore svcStore today eid ety task).error = none ↔
      ∃ p, cfg.find? (fun q => q.1 == task) = some p ∧
      ∃ db, tsStore = .ok db ∧
      ∃ svc, svcStore = .ok svc ∧
      ((p.2.usageBased = true ∧
        ∃ b, baselineDay db assign p.2.tag_name ety eid
              (get_last_service_record svc eid ety task) = some b ∧
          today - b ≠ 0 ∧
          usageSinceBaseline db assign p.2.tag_name ety eid
              (get_last_service_record svc eid ety task) ≠ 0) ∨
       (p.2.usageBased = false ∧
        (get_last_service_record svc eid ety task).isSome = true)) := by
  unfold predict_service_date
  cases hf : cfg.find? (fun q => q.1 == task) with
  | none => simp [errResult, hf]
  | some p =>
    obtain ⟨nm, c⟩ := p
    cases tsStore with
    | error e => simp [errResult, hf]
    | ok db =>
      cases svcStore with
      | error e => simp [errResult, hf]
      | ok svc =>
        simp only [Except.ok.injEq, exists_eq_left', hf, Option.some.injEq,
          exists_eq_left]
        cases husage : c.usageBased with
        | true =>
          simp only [if_true]
          cases hb : baselineDay db assign c.tag_name ety eid
              (get_last_service_record svc eid ety task) with
          | none => simp [cannotExtrapolate, husage]
          | some b =>
            by_cases h1 : today - b = 0
            · simp [cannotExtrapolate, husage, h1]
            · by_cases h2 : usageSinceBaseline db assign c.tag_name ety eid
                  (get_last_service_record svc eid ety task) = 0
              · simp [cannotExtrapolate, husage, h1, h2]
              · simp [husage, h1, h2]
        | false =>
          simp only [Bool.false_eq_true, if_false]
          cases hls : get_last_service_record svc eid ety task with
          | none => simp [errResult, husage]
          | some r => simp [husage]

lemma process_line_eq_timestampFail (patterns : List String)
    (mapping : List (String × String)) (line : String)
    (ts tag res cn : List Char)
    (hcand : patterns.any (fun p => containsSub p.toList line.toList) = true)
    (hstruct : structMatch (pyStrip line.toList) = some (ts, tag, res))
    (hcrane : searchCrane tag = some cn)
    (hdetail : ∃ det, searchDetail (craneTagHead cn) tag = some det)
    (hts : tsParse ts = none) :
    process_line patterns mapping line = .timestampFail := by
  obtain ⟨det, hdet⟩ := hdetail
  unfold process_line
  rw [hcand]
  simp only [if_true, hstruct, hcrane, hdet, hts]

/-- C6: a candidate line that reaches timestamp parsing but whose
timestamp token does not parse under the single fixed format
`%Y-%m-%d_%H.%M.%S.%f` inserts zero samples, records exactly one warning,
and the batch continues: ingesting a file with that line is the same as
ingesting the lines before it and then the lines after it — the line never
aborts the run. -/
theorem claim6_skip_on_bad_timestamp (patterns : List String)
    (mapping : List (String × String)) (line : String)
    (ts tag res cn det : List Char)
    (hcand : patterns.any (fun p => containsSub p.toList line.toList) = true)
    (hstruct : structMatch (pyStrip line.toList) = some (ts, tag, res))
    (hcrane : searchCrane tag = some cn)
    (hdetail : searchDetail (craneTagHead cn) tag = some det)
    (hts : tsParse ts = none) :
    lineInserts (process_line patterns mapping line) = [] ∧
    lineWarnings (process_line patterns mapping line) = 1 ∧
    ∀ (db : List StatRow) (pre post : List String),
      ingestFile patterns mapping db (pre ++ line :: post)
        = ingestFile patterns mapping (ingestFile patterns mapping db pre) post := by
  have hpl : process_line patterns mapping line = .timestampFail :=
    process_line_eq_timestampFail patterns mapping line ts tag res cn
      hcand hstruct hcrane ⟨det, hdetail⟩ hts
  refine ⟨by rw [hpl]; rfl, by rw [hpl]; rfl, ?_⟩
  intro db pre post
  unfold ingestFile
  rw [List.foldl_append]
  show List.foldl _ (ingestLine patterns mapping (List.foldl _ db pre) line) post = _
  have hid : ingestLine patterns mapping (List.foldl (ingestLine patterns mapping) db pre) line
      = List.foldl (ingestLine patterns mapping) db pre := by
    unfold ingestLine
    rw [hpl]
  rw [hid]

/-- C6 witness: a concrete candidate line whose timestamp token `BADTS`
fails the fixed-format parse is skipped with one warning, and a following
line is still processed. -/
theorem claim6_skip_on_bad_timestamp_witness :
    (["TAG:[RMG01/RMG01:CRANE.STATISTIC.Perma.CMS]"].any
        (fun p => containsSub p.toList
          "BADTS: (42): TAG:[RMG01/RMG01:CRANE.STATISTIC.Perma.CMS] 777".toList) = true) ∧
    structMatch (pyStrip "BADTS: (42): TAG:[RMG01/RMG01:CRANE.STATISTIC.Perma.CMS] 777".toList)
      = some ("BADTS".toList, "TAG:[RMG01/RMG01:CRANE.STATISTIC.Perma.CMS]".toList,
              "777".toList) ∧
    searchCrane "TAG:[RMG01/RMG01:CRANE.STATISTIC.Perma.CMS]".toList
      = some "RMG01".toList ∧
    searchDetail (craneTagHead "RMG01".toList)
        "TAG:[RMG01/RMG01:CRANE.STATISTIC.Perma.CMS]".toList = some "CMS".toList ∧
    tsParse "BADTS".toList = none ∧
    lineInserts (process_line ["TAG:[RMG01/RMG01:CRANE.STATISTIC.Perma.CMS]"] []
        "BADTS: (42): TAG:[RMG01/RMG01:CRANE.STATISTIC.Perma.CMS] 777") = [] ∧
    lineWarnings (process_line ["TAG:[RMG01/RMG01:CRANE.STATISTIC.Perma.CMS]"] []
        "BADTS: (42): TAG:[RMG01/RMG01:CRANE.STATISTIC.Perma.CMS] 777") = 1 ∧
    ingestFile ["TAG:[RMG01/RMG01:CRANE.STATISTIC.Perma.CMS]"] [] []
        ([] ++ "BADTS: (42): TAG:[RMG01/RMG01:CRANE.STATISTIC.Perma.CMS] 777" ::
          ["2024-01-02_03.04.05.123456: (43): TAG:[RMG01/RMG01:CRANE.STATISTIC.Perma.CMS] 778"])
      = ingestFile ["TAG:[RMG01/RMG01:CRANE.STATISTIC.Perma.CMS]"] []
          (ingestFile ["TAG:[RMG01/RMG01:CRANE.STATISTIC.Perma.CMS]"] [] [] [])
          ["2024-01-02_03.04.05.123456: (43): TAG:[RMG01/RMG01:CRANE.STATISTIC.Perma.CMS] 778"] :=
  ⟨by decide, by decide, by decide, by decide, by decide,
   (claim6_skip_on_bad_timestamp ["TAG:[RMG01/RMG01:CRANE.STATISTIC.Perma.CMS]"] []
      "BADTS: (42): TAG:[RMG01/RMG01:CRANE.STATISTIC.Perma.CMS] 777"
      "BADTS".toList "TAG:[RMG01/RMG01:CRANE.STATISTIC.Perma.CMS]".toList
      "777".toList "RMG01".toList "CMS".toList
      (by decide) (by decide) (by decide) (by decide) (by decide)).1,
   (claim6_skip_on_bad_timestamp ["TAG:[RMG01/RMG01:CRANE.STATISTIC.Perma.CMS]"] []
      "BADTS: (42): TAG:[RMG01/RMG01:CRANE.STATISTIC.Perma.CMS] 777"
      "BADTS".toList "TAG:[RMG01/RMG01:CRANE.STATISTIC.Perma.CMS]".toList
      "777".toList "RMG01".toList "CMS".toList
      (by decide) (by decide) (by decide) (by decide) (by decide)).2.1,
   (claim6_skip_on_bad_timestamp ["TAG:[RMG01/RMG01:CRANE.STATISTIC.Perma.CMS]"] []
      "BADTS: (42): TAG:[RMG01/RMG01:CRANE.STATISTIC.Perma.CMS] 777"
      "BADTS".toList "TAG:[RMG01/RMG01:CRANE.STATISTIC.Perma.CMS]".toList
      "777".toList "RMG01".toList "CMS".toList
      (by decide) (by decide) (by decide) (by decide) (by decide)).2.2 [] []
      ["2024-01-02_03.04.05.123456: (43): TAG:[RMG01/RMG01:CRANE.STATISTIC.Perma.CMS] 778"]⟩

/-- C7: tag resolution is total and never fails — a fully extracted line
is stored as exactly one sample whose metric name is the mapping's entry
for the cleaned tag detail when the detail is a key of the mapping, and
the cleaned raw detail itself otherwise; the line is not dropped and no
warning is recorded, whatever the mapping contains. -/
theorem claim7_tag_fallback (patterns : List String)
    (mapping : List (String × String)) (line : String)
    (ts tag res cn det : List Char) (dt : DateTime)
    (hcand : patterns.any (fun p => containsSub p.toList line.toList) = true)
    (hstruct : structMatch (pyStrip line.toList) = some (ts, tag, res))
    (hcrane : searchCrane tag = some cn)
    (hdetail : searchDetail (craneTagHead cn) tag = some det)
    (hts : tsParse ts = some dt) :
    process_line patterns mapping line
      = .parsed ⟨String.mk cn, resolveTag mapping (String.mk (cleanTag det)), dt,
                 String.mk (pyStrip res)⟩ ∧
    lineInserts (process_line patterns mapping line)
      = [⟨String.mk cn, resolveTag mapping (String.mk (cleanTag det)), dt,
          String.mk (pyStrip res)⟩] ∧
    lineWarnings (process_line patterns mapping line) = 0 ∧
    (mapping.find? (fun p => p.1 == String.mk (cleanTag det)) = none →
      resolveTag mapping (String.mk (cleanTag det)) = String.mk (cleanTag det)) ∧
    (∀ q, mapping.find? (fun p => p.1 == String.mk (cleanTag det)) = some q →
      resolveTag mapping (String.mk (cleanTag det)) = q.2) := by
  have hpl : process_line patterns mapping line
      = .parsed ⟨String.mk cn, resolveTag mapping (String.mk (cleanTag det)), dt,
                 String.mk (pyStrip res)⟩ := by
    unfold process_line
    rw [hcand]
    simp only [if_true, hstruct, hcrane, hdetail, hts]
  refine ⟨hpl, by rw [hpl]; rfl, by rw [hpl]; rfl, ?_, ?_⟩
  · intro hnone
    unfold resolveTag
    rw [hnone]
  · intro q hq
    unfold resolveTag
    rw [hq]

/-- C7 witness: the concrete raw tag `CMS` has no entry in an empty
mapping, and the sample is stored under the cleaned raw name `CMS`; with a
mapping entry present, the sample is stored under the mapped name. -/
theorem claim7_tag_fallback_witness :
    (["TAG:[RMG01/RMG01:CRANE.STATISTIC.Perma.CMS]"].any
        (fun p => containsSub p.toList
          "2024-01-02_03.04.05.123456: (42): TAG:[RMG01/RMG01:CRANE.STATISTIC.Perma.CMS] 777".toList) = true) ∧
    structMatch (pyStrip "2024-01-02_03.04.05.123456: (42): TAG:[RMG01/RMG01:CRANE.STATISTIC.Perma.CMS] 777".toList)
      = some ("2024-01-02_03.04.05.123456".toList,
              "TAG:[RMG01/RMG01:CRANE.STATISTIC.Perma.CMS]".toList, "777".toList) ∧
    tsParse "2024-01-02_03.04.05.123456".toList = some ⟨2024, 1, 2, 3, 4, 5, 123456⟩ ∧
    process_line ["TAG:[RMG01/RMG01:CRANE.STATISTIC.Perma.CMS]"] []
        "2024-01-02_03.04.05.123456: (42): TAG:[RMG01/RMG01:CRANE.STATISTIC.Perma.CMS] 777"
      = .parsed ⟨"RMG01",
          resolveTag [] (String.mk (cleanTag "CMS".toList)),
          ⟨2024, 1, 2, 3, 4, 5, 123456⟩, "777"⟩ ∧
    resolveTag [] (String.mk (cleanTag "CMS".toList)) = "CMS" ∧
    process_line ["TAG:[RMG01/RMG01:CRANE.STATISTIC.Perma.CMS]"]
        [("CMS", "Crane Move Count")]
        "2024-01-02_03.04.05.123456: (42): TAG:[RMG01/RMG01:CRANE.STATISTIC.Perma.CMS] 777"
      = .parsed ⟨"RMG01", "Crane Move Count", ⟨2024, 1, 2, 3, 4, 5, 123456⟩, "777"⟩ :=
  ⟨by decide, by decide, by decide,
   (claim7_tag_fallback ["TAG:[RMG01/RMG01:CRANE.STATISTIC.Perma.CMS]"] []
      "2024-01-02_03.04.05.123456: (42): TAG:[RMG01/RMG01:CRANE.STATISTIC.Perma.CMS] 777"
      "2024-01-02_03.04.05.123456".toList
      "TAG:[RMG01/RMG01:CRANE.STATISTIC.Perma.CMS]".toList "777".toList
      "RMG01".toList "CMS".toList ⟨2024, 1, 2, 3, 4, 5, 123456⟩
      (by decide) (by decide) (by decide) (by decide) (by decide)).1,
   by decide, by decide⟩

/-- C2 witness: a spreader `S1` mounted on cranes `C1` and `C2`, each with
samples before and after the last service, accrues the sum of the two
per-crane deltas (`150 − 100` plus `260 − 200`). -/
theorem claim2_spreader_aggregation_witness :
    ([("t", ⟨"m", some 1000, 365⟩)] : List (String × TaskConfig)).find?
        (fun p => p.1 == "t") = some ("t", ⟨"m", some 1000, 365⟩) ∧
    (⟨"m", some 1000, 365⟩ : TaskConfig).usageBased = true ∧
    assignedCranes [("S1", "C1"), ("S1", "C2")] "S1" ≠ [] ∧
    (predict_service_date [("t", ⟨"m", some 1000, 365⟩)] [("S1", "C1"), ("S1", "C2")]
        (.ok [⟨"C1", "m", 0, 100⟩, ⟨"C1", "m", 10, 150⟩,
              ⟨"C2", "m", 0, 200⟩, ⟨"C2", "m", 10, 260⟩])
        (.ok [⟨"S1", "spreader", "t", 5, some 0⟩]) 15 "S1" "spreader" "t").current_value
      = ((assignedCranes [("S1", "C1"), ("S1", "C2")] "S1").map (fun crane =>
          match get_latest_value [⟨"C1", "m", 0, 100⟩, ⟨"C1", "m", 10, 150⟩,
              ⟨"C2", "m", 0, 200⟩, ⟨"C2", "m", 10, 260⟩] crane "m" with
          | none => 0
          | some latest =>
              latest.value -
                (match get_last_service_record [⟨"S1", "spreader", "t", 5, some 0⟩]
                    "S1" "spreader" "t" with
                 | some r => (valueAtOrBefore [⟨"C1", "m", 0, 100⟩, ⟨"C1", "m", 10, 150⟩,
                     ⟨"C2", "m", 0, 200⟩, ⟨"C2", "m", 10, 260⟩] crane "m" r.service_date).getD 0
                 | none =>
                     match earliestSample [⟨"C1", "m", 0, 100⟩, ⟨"C1", "m", 10, 150⟩,
                         ⟨"C2", "m", 0, 200⟩, ⟨"C2", "m", 10, 260⟩] crane "m" with
                     | some e => e.value
                     | none => 0))).sum ∧
    (predict_service_date [("t", ⟨"m", some 1000, 365⟩)] [("S1", "C1"), ("S1", "C2")]
        (.ok [⟨"C1", "m", 0, 100⟩, ⟨"C1", "m", 10, 150⟩,
              ⟨"C2", "m", 0, 200⟩, ⟨"C2", "m", 10, 260⟩])
        (.ok [⟨"S1", "spreader", "t", 5, some 0⟩]) 15 "S1" "spreader" "t").current_value
      = 110 :=
  ⟨by decide, by decide, by decide,
   claim2_spreader_aggregation [("t", ⟨"m", some 1000, 365⟩)] [("S1", "C1"), ("S1", "C2")]
      [⟨"C1", "m", 0, 100⟩, ⟨"C1", "m", 10, 150⟩, ⟨"C2", "m", 0, 200⟩, ⟨"C2", "m", 10, 260⟩]
      [⟨"S1", "spreader", "t", 5, some 0⟩] 15 "S1" "t" "t" ⟨"m", some 1000, 365⟩
      (by decide) (by decide) (by decide),
   by decide⟩
